import Mathlib

unseal Rat.add Rat.mul Rat.inv Rat.sub

deriving instance DecidableEq for Except

set_option maxRecDepth 100000

/-!
# Revenue Cycle Analyzer — formal model

A shallow embedding of `src/scripts/revenue_analyzer.py` (class
`RevenueCycleAnalyzer`).  The program is a sequence of SQL queries over four
tables (`claims`, `denials`, `payers`, `encounters`) plus string formatting.

Modelling conventions:
* the database snapshot is a record of four lists of rows;
* calendar dates are day numbers (`ℤ`); `CURRENT_DATE` and the two
  `INTERVAL 'n months'` cutoffs (calendar-month arithmetic) are passed in as
  explicit parameters;
* money amounts are `ℚ`; SQL-nullable columns are `Option`;
* SQL `SUM`/`AVG` skip NULLs and return NULL on an empty (all-NULL) input;
  `x / NULLIF(d, 0)` is `divNullif`; an *unguarded* SQL division is `sqlDiv`,
  which returns `Except.error` on a non-NULL zero divisor (SQL arithmetic
  operators are strict, so a NULL operand short-circuits to NULL without
  faulting);
* `ROUND(x, n)` is numeric half-away-from-zero rounding to `n` decimals.
-/

namespace RevenueCycle

/-- One row of the `claims` table.  Columns the code guards with `COALESCE`,
`IS NOT NULL` or a NULL-test `CASE` are modelled as nullable. -/
structure Claim where
  claim_id : Nat
  patient_id : Nat
  payer_id : Nat
  status : String
  charge_amount : ℚ
  allowed_amount : Option ℚ
  paid_amount : Option ℚ
  adjustment_amount : ℚ
  patient_responsibility : Option ℚ
  submission_date : ℤ
  payment_date : Option ℤ
  deriving DecidableEq

/-- One row of the `denials` table. -/
structure Denial where
  denial_id : Nat
  claim_id : Nat
  denial_category : String
  denial_reason_code : String
  denial_reason_description : String
  denial_date : ℤ
  denied_amount : ℚ
  work_status : String
  resolution_type : String
  recovered_amount : ℚ
  preventable : Bool
  deriving DecidableEq

/-- One row of the `payers` table. -/
structure Payer where
  payer_id : Nat
  payer_name : String
  payer_type : String
  deriving DecidableEq

/-- One row of the `encounters` table. -/
structure Encounter where
  encounter_id : Nat
  patient_id : Nat
  provider_id : Nat
  encounter_date : ℤ
  expected_charge : ℚ
  documentation_complete : Bool
  coding_complete : Bool
  charge_entered : Bool
  claim_generated : Bool
  deriving DecidableEq

/-- The external data snapshot the analyzer queries. -/
structure Snapshot where
  claims : List Claim
  denials : List Denial
  payers : List Payer
  encounters : List Encounter
  deriving DecidableEq

/-! ## SQL aggregate / arithmetic semantics -/

/-- SQL `SUM` over a nullable numeric column: NULLs are skipped and the sum of
an empty (or all-NULL) input is NULL. -/
def sqlSum (l : List (Option ℚ)) : Option ℚ :=
  let xs := l.filterMap id
  if xs.isEmpty then none else some xs.sum

/-- SQL `AVG` over a nullable numeric column: NULLs are skipped; NULL when no
non-NULL value remains. -/
def sqlAvg (l : List (Option ℚ)) : Option ℚ :=
  let xs := l.filterMap id
  if xs.isEmpty then none else some (xs.sum / xs.length)

/-- SQL `COUNT(DISTINCT c)` over a non-NULL column of keys. -/
def countDistinct (l : List Nat) : Nat := l.dedup.length

/-- SQL `x / NULLIF(d, 0)`: NULL when either operand is NULL or the divisor is
zero, so this division never faults. -/
def divNullif (x d : Option ℚ) : Option ℚ :=
  match x, d with
  | some a, some b => if b = 0 then none else some (a / b)
  | _, _ => none

/-- An unguarded SQL division.  SQL operators are strict: a NULL operand gives
NULL without evaluating, but a non-NULL zero divisor raises
`division by zero`. -/
def sqlDiv (x d : Option ℚ) : Except String (Option ℚ) :=
  match x, d with
  | some a, some b => if b = 0 then .error "division by zero" else .ok (some (a / b))
  | _, _ => .ok none

/-- Round half away from zero to an integer (SQL `NUMERIC` rounding). -/
def rnd0 (q : ℚ) : ℤ :=
  if 0 ≤ q then ⌊q + 1/2⌋ else -⌊-q + 1/2⌋

/-- SQL `ROUND(q, n)`: round half away from zero at `n` decimal places. -/
def roundTo (n : Nat) (q : ℚ) : ℚ :=
  (rnd0 (q * (10 ^ n : ℕ)) : ℚ) / (10 ^ n : ℕ)

/-- SQL `ROUND(q, 2)`, the rounding used for every rate in the program. -/
def round2 (q : ℚ) : ℚ := roundTo 2 q

/-- SQL `ROUND((num / NULLIF(den, 0)) * 100, 2)` — the percentage-rate idiom used
throughout the queries. -/
def pctRate (num den : Option ℚ) : Option ℚ :=
  (divNullif num den).map (fun r => round2 (r * 100))

/-! ## `calculate_revenue_metrics` (revenue_analyzer.py lines 47–106)

The query builds two single-row aggregate CTEs (`claim_summary` over claims
whose `submission_date` lies in `[start_date, end_date]`, and `ar_summary`
over all open claims) and cross-joins them.  An ungrouped aggregate `SELECT`
always produces exactly one row, so the query result is a one-element list.
The Python wrapper returns `{}` when the result has no rows and the first row
otherwise; `Metrics` is that row. -/

structure Metrics where
  total_claims : Nat
  paid_claims : Nat
  denied_claims : Nat
  total_charges : Option ℚ
  total_allowed : Option ℚ
  total_payments : Option ℚ
  total_adjustments : Option ℚ
  avg_days_to_payment : Option ℚ
  total_ar : Option ℚ
  ar_over_90 : Option ℚ
  clean_claim_rate : Option ℚ
  denial_rate : Option ℚ
  net_collection_rate : Option ℚ
  gross_collection_rate : Option ℚ
  ar_over_90_pct : Option ℚ
  days_in_ar : Option ℚ
  deriving DecidableEq

/-- SQL `submission_date BETWEEN start_date AND end_date`. -/
def inWindow (startD endD : ℤ) (c : Claim) : Bool :=
  startD ≤ c.submission_date && c.submission_date ≤ endD

/-- SQL `status NOT IN ('PAID', 'WRITTEN_OFF')` — the open-claim predicate of
`ar_summary`. -/
def isOpen (c : Claim) : Bool :=
  c.status ≠ "PAID" && c.status ≠ "WRITTEN_OFF"

/-- SQL `charge_amount - COALESCE(paid_amount, 0)` for one claim. -/
def outstanding (c : Claim) : ℚ :=
  c.charge_amount - c.paid_amount.getD 0

/-- The single row produced by the metrics query, except for `days_in_ar`
whose division can fault and is computed separately. -/
def metricsRow (s : Snapshot) (today startD endD : ℤ) : Metrics :=
  let w := s.claims.filter (inWindow startD endD)
  let openClaims := s.claims.filter isOpen
  let total_claims := countDistinct (w.map Claim.claim_id)
  let paid_claims := countDistinct ((w.filter (fun c => c.status = "PAID")).map Claim.claim_id)
  let denied_claims := countDistinct ((w.filter (fun c => c.status = "DENIED")).map Claim.claim_id)
  let total_charges := sqlSum (w.map (fun c => some c.charge_amount))
  let total_allowed := sqlSum (w.map Claim.allowed_amount)
  let total_payments := sqlSum (w.map Claim.paid_amount)
  let total_adjustments := sqlSum (w.map (fun c => some c.adjustment_amount))
  let avg_days_to_payment := sqlAvg (w.map (fun c =>
    c.payment_date.map (fun pd => ((pd - c.submission_date : ℤ) : ℚ))))
  let total_ar := sqlSum (openClaims.map (fun c => some (outstanding c)))
  let ar_over_90 := sqlSum (openClaims.map (fun c =>
    some (if today - c.submission_date > 90 then outstanding c else 0)))
  { total_claims := total_claims
    paid_claims := paid_claims
    denied_claims := denied_claims
    total_charges := total_charges
    total_allowed := total_allowed
    total_payments := total_payments
    total_adjustments := total_adjustments
    avg_days_to_payment := avg_days_to_payment
    total_ar := total_ar
    ar_over_90 := ar_over_90
    clean_claim_rate := pctRate (some (paid_claims : ℚ)) (if total_claims = 0 then none else some total_claims)
    denial_rate := pctRate (some (denied_claims : ℚ)) (if total_claims = 0 then none else some total_claims)
    net_collection_rate := pctRate total_payments total_allowed
    gross_collection_rate := pctRate total_payments total_charges
    ar_over_90_pct := pctRate ar_over_90 total_ar
    days_in_ar := none }

/-- SQL `ROUND(total_ar / ((total_payments * 365.0) / (end_date - start_date)), 2)`
— both divisions are unguarded, so this can fault. -/
def daysInAr (total_ar total_payments : Option ℚ) (startD endD : ℤ) :
    Except String (Option ℚ) := do
  let inner ← sqlDiv (total_payments.map (fun p => p * 365)) (some ((endD - startD : ℤ) : ℚ))
  let outer ← sqlDiv total_ar inner
  pure (outer.map round2)

/-- The full query result: a one-element row list (an ungrouped aggregate
query yields exactly one row), or a query error if `days_in_ar` faults. -/
def metricsQueryRows (s : Snapshot) (today startD endD : ℤ) :
    Except String (List Metrics) := do
  let dar ← daysInAr (metricsRow s today startD endD).total_ar
    (metricsRow s today startD endD).total_payments startD endD
  pure [{ metricsRow s today startD endD with days_in_ar := dar }]

/-- Python `calculate_revenue_metrics`: run the query; return `none` (the `{}` of the
Python) when the result frame is empty, otherwise the first row. -/
def calculate_revenue_metrics (s : Snapshot) (today startD endD : ℤ) :
    Except String (Option Metrics) := do
  let rows ← metricsQueryRows s today startD endD
  match rows with
  | [] => pure none
  | r :: _ => pure (some r)

/-! ## `analyze_denial_patterns` (revenue_analyzer.py lines 108–165)

Denials in the lookback window (`denial_date >= CURRENT_DATE - INTERVAL
'n months'`; the calendar-month cutoff date is the `cutoff` parameter) are
inner-joined with `claims` and `payers`, grouped by (category, reason code,
reason description), filtered by `HAVING COUNT(d.denial_id) >= 5` (a count of
join rows, not of distinct ids) and ordered by `total_denied` descending. -/

/-- SQL `NULLIF(count, 0)` for a row count used as a rate denominator. -/
def nullifCount (n : Nat) : Option ℚ :=
  if n = 0 then none else some n

structure DenialPattern where
  denial_category : String
  denial_reason_code : String
  denial_reason_description : String
  denial_count : Nat
  total_denied : ℚ
  avg_denied : Option ℚ
  resolved : Nat
  appeals_won : Nat
  amount_recovered : ℚ
  appeal_success_rate : Option ℚ
  preventable_count : Nat
  preventable_pct : Option ℚ
  top_payers : String
  deriving DecidableEq

/-- The joined row set `denials d JOIN claims c ON d.claim_id = c.claim_id
JOIN payers p ON c.payer_id = p.payer_id WHERE d.denial_date >= cutoff`. -/
def denialJoinRows (s : Snapshot) (cutoff : ℤ) : List (Denial × Claim × Payer) :=
  (s.denials.filter (fun d => cutoff ≤ d.denial_date)).flatMap fun d =>
    (s.claims.filter (fun c => c.claim_id = d.claim_id)).flatMap fun c =>
      (s.payers.filter (fun p => p.payer_id = c.payer_id)).map fun p => (d, c, p)

/-- The `GROUP BY` key. -/
def dKey (r : Denial × Claim × Payer) : String × String × String :=
  (r.1.denial_category, r.1.denial_reason_code, r.1.denial_reason_description)

/-- The aggregates of one denial-pattern group (one output row of the
query's `SELECT` list). -/
def mkDenialRow (key : String × String × String) (rows : List (Denial × Claim × Payer)) :
    DenialPattern :=
  let ds := rows.map Prod.fst
  let appealsWon := (ds.filter (fun d => d.resolution_type = "APPEALED_WON")).length
  let appealed := (ds.filter (fun d => d.resolution_type.startsWith "APPEALED")).length
  let preventableCount := (ds.filter (fun d => d.preventable)).length
  { denial_category := key.1
    denial_reason_code := key.2.1
    denial_reason_description := key.2.2
    denial_count := countDistinct (ds.map Denial.denial_id)
    total_denied := (ds.map Denial.denied_amount).sum
    avg_denied := (sqlAvg (ds.map (fun d => some d.denied_amount))).map round2
    resolved := (ds.filter (fun d => d.work_status = "RESOLVED")).length
    appeals_won := appealsWon
    amount_recovered := (ds.map (fun d =>
      if d.resolution_type = "APPEALED_WON" then d.recovered_amount else 0)).sum
    appeal_success_rate := pctRate (some (appealsWon : ℚ)) (nullifCount appealed)
    preventable_count := preventableCount
    preventable_pct := pctRate (some (preventableCount : ℚ)) (nullifCount rows.length)
    top_payers := String.intercalate ", " ((rows.map (fun r => r.2.2.payer_name)).dedup) }

/-- The `GROUP BY` step: one entry per distinct key, carrying the key's join
rows. -/
def denialGroupRows (s : Snapshot) (cutoff : ℤ) :
    List ((String × String × String) × List (Denial × Claim × Payer)) :=
  (((denialJoinRows s cutoff).map dKey).dedup).map
    (fun k => (k, (denialJoinRows s cutoff).filter (fun x => dKey x = k)))

def analyze_denial_patterns (s : Snapshot) (cutoff : ℤ) : List DenialPattern :=
  (((denialGroupRows s cutoff).filter (fun g => 5 ≤ g.2.length)).map
    (fun g => mkDenialRow g.1 g.2)).mergeSort
    (fun a b => b.total_denied ≤ a.total_denied)

/-! ## `identify_revenue_leakage` (revenue_analyzer.py lines 167–258) -/

structure UnbilledRow where
  encounter_id : Nat
  patient_id : Nat
  provider_id : Nat
  encounter_date : ℤ
  expected_charge : ℚ
  days_unbilled : ℤ
  bottleneck : Option String
  deriving DecidableEq

/-- The `CASE` expression assigning the bottleneck label; with no `ELSE`
branch it yields NULL when no `WHEN` matches. -/
def caseBottleneck (e : Encounter) : Option String :=
  if !e.documentation_complete then some "Missing Documentation"
  else if !e.coding_complete then some "Coding Incomplete"
  else if !e.charge_entered then some "Charges Not Entered"
  else if !e.claim_generated then some "Claim Not Generated"
  else none

/-- The `WHERE` clause of the unbilled-encounter query: dated between 90 and 7
days ago and no claim generated. -/
def unbilledFilter (today : ℤ) (e : Encounter) : Bool :=
  today - 90 ≤ e.encounter_date && e.encounter_date ≤ today - 7 && !e.claim_generated

def mkUnbilledRow (today : ℤ) (e : Encounter) : UnbilledRow :=
  { encounter_id := e.encounter_id
    patient_id := e.patient_id
    provider_id := e.provider_id
    encounter_date := e.encounter_date
    expected_charge := e.expected_charge
    days_unbilled := today - e.encounter_date
    bottleneck := caseBottleneck e }

def unbilledEncounters (s : Snapshot) (today : ℤ) : List UnbilledRow :=
  ((s.encounters.filter (unbilledFilter today)).map (mkUnbilledRow today)).mergeSort
    (fun a b => b.expected_charge ≤ a.expected_charge)

structure UnderpaymentRow where
  claim_id : Nat
  patient_id : Nat
  payer_name : String
  submission_date : ℤ
  allowed_amount : ℚ
  patient_responsibility : Option ℚ
  paid_amount : Option ℚ
  expected_payment : ℚ
  variance : Option ℚ
  variance_pct : Option ℚ
  deriving DecidableEq

/-- The `payment_variance` CTE: paid claims with a payment in the last 90
days and a non-NULL `allowed_amount`, joined with their payer.
`variance = (allowed - COALESCE(patient_responsibility, 0)) - paid_amount`
is NULL when `paid_amount` is NULL. -/
def paymentVarianceRows (s : Snapshot) (today : ℤ) : List UnderpaymentRow :=
  s.claims.flatMap fun c =>
    (s.payers.filter (fun p => p.payer_id = c.payer_id)).filterMap fun p =>
      match c.allowed_amount, c.payment_date with
      | some al, some pd =>
        if c.status = "PAID" && today - 90 ≤ pd then
          some { claim_id := c.claim_id
                 patient_id := c.patient_id
                 payer_name := p.payer_name
                 submission_date := c.submission_date
                 allowed_amount := al
                 patient_responsibility := c.patient_responsibility
                 paid_amount := c.paid_amount
                 expected_payment := al - c.patient_responsibility.getD 0
                 variance := c.paid_amount.map (fun pa =>
                   al - c.patient_responsibility.getD 0 - pa)
                 variance_pct := pctRate (c.paid_amount.map (fun pa =>
                     al - c.patient_responsibility.getD 0 - pa))
                   (some (al - c.patient_responsibility.getD 0)) }
        else none
      | _, _ => none

/-- SQL `WHERE ABS(variance) > 10` — a NULL variance fails the comparison. -/
def varianceKept (r : UnderpaymentRow) : Bool :=
  match r.variance with
  | some v => 10 < |v|
  | none => false

/-- SQL `ABS(variance)` as sort key (every kept row has a non-NULL variance). -/
def absVariance (r : UnderpaymentRow) : ℚ :=
  match r.variance with
  | some v => |v|
  | none => 0

def underpayments (s : Snapshot) (today : ℤ) : List UnderpaymentRow :=
  ((paymentVarianceRows s today).filter varianceKept).mergeSort
    (fun a b => absVariance b ≤ absVariance a)

structure OldArRow where
  claim_id : Nat
  patient_id : Nat
  payer_id : Nat
  submission_date : ℤ
  outstanding : ℚ
  days_outstanding : ℤ
  status : String
  deriving DecidableEq

def mkOldArRow (today : ℤ) (c : Claim) : OldArRow :=
  { claim_id := c.claim_id
    patient_id := c.patient_id
    payer_id := c.payer_id
    submission_date := c.submission_date
    outstanding := outstanding c
    days_outstanding := today - c.submission_date
    status := c.status }

def oldAr (s : Snapshot) (today : ℤ) : List OldArRow :=
  ((s.claims.filter (fun c =>
      isOpen c && today - c.submission_date > 90 && outstanding c > 0)).map
    (mkOldArRow today)).mergeSort (fun a b => b.outstanding ≤ a.outstanding)

/-- Python `leakage['unbilled_encounters']['expected_charge'].sum()`. -/
def sumExpectedCharge (l : List UnbilledRow) : ℚ :=
  (l.map UnbilledRow.expected_charge).sum

/-- Python `leakage['underpayments']['variance'].sum()` — a pandas sum skips
missing values (only signed, non-NULL variances contribute). -/
def sumVariance (l : List UnderpaymentRow) : ℚ :=
  (l.filterMap UnderpaymentRow.variance).sum

/-- Python `leakage['old_ar']['outstanding'].sum()`. -/
def sumOutstanding (l : List OldArRow) : ℚ :=
  (l.map OldArRow.outstanding).sum

structure Leakage where
  unbilled_encounters : List UnbilledRow
  underpayments : List UnderpaymentRow
  old_ar : List OldArRow
  total_leakage : ℚ
  deriving DecidableEq

def identify_revenue_leakage (s : Snapshot) (today : ℤ) : Leakage :=
  let u := unbilledEncounters s today
  let up := underpayments s today
  let oa := oldAr s today
  { unbilled_encounters := u
    underpayments := up
    old_ar := oa
    total_leakage := sumExpectedCharge u + sumVariance up + sumOutstanding oa }

/-! ## `payer_performance_analysis` (revenue_analyzer.py lines 260–328)

Claims of the trailing 12 months (`submission_date >= CURRENT_DATE - INTERVAL
'12 months'`; the calendar cutoff is the `cutoff` parameter) are joined to
their payer and grouped by (payer_id, payer_name, payer_type).  SQL comparisons
against a NULL rate are never true, so a NULL rate matches no `CASE` branch. -/

/-- SQL `x >= c` on a nullable value: false (NULL) when `x` is NULL. -/
def optGE (x : Option ℚ) (c : ℚ) : Bool :=
  match x with
  | some v => c ≤ v
  | none => false

/-- SQL `x <= c` on a nullable value: false (NULL) when `x` is NULL. -/
def optLE (x : Option ℚ) (c : ℚ) : Bool :=
  match x with
  | some v => v ≤ c
  | none => false

/-- The rating `CASE` expression.  In the query it repeats the
`reimbursement_rate` and `denial_rate` expressions of the `SELECT` list
verbatim, so it is a function of the three computed, rounded values. -/
def caseRating (reimb dr avgDays : Option ℚ) : String :=
  if optGE reimb 95 && optLE dr 5 && optLE avgDays 30 then "Excellent"
  else if optGE reimb 85 && optLE dr 10 then "Good"
  else if optGE reimb 75 && optLE dr 15 then "Fair"
  else "Poor"

/-- The aggregates of the `payer_metrics` CTE for one payer group. -/
structure PayerMetrics where
  payer_name : String
  payer_type : String
  total_claims : Nat
  total_charges : Option ℚ
  total_allowed : Option ℚ
  total_payments : Option ℚ
  denials : Nat
  avg_days_to_payment : Option ℚ
  clean_claims : Nat
  deriving DecidableEq

/-- One output row of the payer performance query. -/
structure PayerRow where
  payer_name : String
  payer_type : String
  total_claims : Nat
  total_payments : Option ℚ
  reimbursement_rate : Option ℚ
  denial_rate : Option ℚ
  clean_claim_rate : Option ℚ
  avg_days_to_payment : Option ℚ
  performance_rating : String
  deriving DecidableEq

/-- SQL `payers p JOIN claims c ON p.payer_id = c.payer_id WHERE
c.submission_date >= cutoff`. -/
def payerJoinRows (s : Snapshot) (cutoff : ℤ) : List (Payer × Claim) :=
  s.payers.flatMap fun p =>
    (s.claims.filter (fun c =>
      c.payer_id = p.payer_id && cutoff ≤ c.submission_date)).map fun c => (p, c)

def pKey (r : Payer × Claim) : Nat × String × String :=
  (r.1.payer_id, r.1.payer_name, r.1.payer_type)

/-- The aggregates of one group of the `payer_metrics` CTE.  `clean_claims`
counts paid claims whose id is absent from the `denials` table
(`claim_id NOT IN (SELECT claim_id FROM denials)`). -/
def mkPayerMetrics (s : Snapshot) (key : Nat × String × String)
    (rows : List (Payer × Claim)) : PayerMetrics :=
  let cs := rows.map Prod.snd
  { payer_name := key.2.1
    payer_type := key.2.2
    total_claims := countDistinct (cs.map Claim.claim_id)
    total_charges := sqlSum (cs.map (fun c => some c.charge_amount))
    total_allowed := sqlSum (cs.map Claim.allowed_amount)
    total_payments := sqlSum (cs.map Claim.paid_amount)
    denials := (cs.filter (fun c => c.status = "DENIED")).length
    avg_days_to_payment := (sqlAvg (cs.map (fun c =>
      c.payment_date.map (fun pd => ((pd - c.submission_date : ℤ) : ℚ))))).map (roundTo 1)
    clean_claims := (cs.filter (fun c =>
      c.status = "PAID" && !(s.denials.any (fun d => d.claim_id = c.claim_id)))).length }

/-- The outer `SELECT` list applied to one CTE row. -/
def mkPayerRow (m : PayerMetrics) : PayerRow :=
  let reimb := pctRate m.total_payments m.total_allowed
  let dr := pctRate (some (m.denials : ℚ)) (nullifCount m.total_claims)
  { payer_name := m.payer_name
    payer_type := m.payer_type
    total_claims := m.total_claims
    total_payments := m.total_payments
    reimbursement_rate := reimb
    denial_rate := dr
    clean_claim_rate := pctRate (some (m.clean_claims : ℚ)) (nullifCount m.total_claims)
    avg_days_to_payment := m.avg_days_to_payment
    performance_rating := caseRating reimb dr m.avg_days_to_payment }

/-- SQL `ORDER BY total_payments DESC` — in a descending order NULLs sort first,
so a NULL `total_payments` counts as largest. -/
def payDescLE (a b : PayerRow) : Bool :=
  match a.total_payments, b.total_payments with
  | none, _ => true
  | some _, none => false
  | some x, some y => y ≤ x

def payer_performance_analysis (s : Snapshot) (cutoff : ℤ) : List PayerRow :=
  let rows := payerJoinRows s cutoff
  let keys := (rows.map pKey).dedup
  let metrics := keys.map (fun k => mkPayerMetrics s k (rows.filter (fun r => pKey r = k)))
  let kept := metrics.filter (fun m => 100 ≤ m.total_claims)
  (kept.map mkPayerRow).mergeSort payDescLE

/-! ## `generate_executive_summary` (revenue_analyzer.py lines 330–429)

The method connects, runs the four analyses inside a `try` block, composes the
report text, and releases the connection in a `finally` clause.  The composed
text embeds `datetime.now()` (the `Generated:` line), passed here as the `now`
parameter.  Number formatting abstracts Python's `format` (no digit grouping;
a missing value renders as `nan`, as a pandas NaN does); the structure of
every line is kept. -/

def sep70 : String := String.mk (List.replicate 70 '=')

/-- Fixed-point rendering of a rational at `d` decimal places. -/
def fmtFixed (d : Nat) (q : ℚ) : String :=
  let scaled := rnd0 (q * ((10 : ℚ) ^ d))
  let sign := if scaled < 0 then "-" else ""
  let n := scaled.natAbs
  let ip := n / 10 ^ d
  let fp := n % 10 ^ d
  if d = 0 then sign ++ toString ip
  else
    let fpStr := toString fp
    sign ++ toString ip ++ "." ++
      String.mk (List.replicate (d - fpStr.length) '0') ++ fpStr

/-- Formatting a nullable value: SQL NULL reaches the report as a pandas NaN
and renders as `nan`. -/
def fmtOpt (d : Nat) (x : Option ℚ) : String :=
  match x with
  | some q => fmtFixed d q
  | none => "nan"

/-- Python `metrics.get(key, 0)` for a numeric KPI: `0` only when the mapping itself
is empty. -/
def mQ (m? : Option Metrics) (f : Metrics → Option ℚ) : Option ℚ :=
  match m? with
  | none => some 0
  | some m => f m

/-- Python `metrics.get(key, 0)` for a count KPI. -/
def mN (m? : Option Metrics) (f : Metrics → Nat) : Nat :=
  match m? with
  | none => 0
  | some m => f m

/-- One entry of the top-5 denial-reasons loop. -/
def denialLine (i : Nat) (r : DenialPattern) : String :=
  "\n" ++ toString (i + 1) ++ ". " ++ r.denial_category ++ " - " ++
    r.denial_reason_description ++ "\n" ++
  "   Count: " ++ toString r.denial_count ++ " | Amount: $" ++
    fmtFixed 2 r.total_denied ++ "\n" ++
  "   Appeal Success: " ++ fmtOpt 1 r.appeal_success_rate ++ "% | Preventable: " ++
    fmtOpt 1 r.preventable_pct ++ "%\n"

/-- One entry of the top-5 payers loop. -/
def payerLine (i : Nat) (r : PayerRow) : String :=
  "\n" ++ toString (i + 1) ++ ". " ++ r.payer_name ++ " (" ++ r.payer_type ++ ")\n" ++
  "   Collections: $" ++ fmtOpt 2 r.total_payments ++ " | Rating: " ++
    r.performance_rating ++ "\n" ++
  "   Denial Rate: " ++ fmtOpt 1 r.denial_rate ++ "% | Days to Payment: " ++
    fmtOpt 0 r.avg_days_to_payment ++ "\n"

/-- The report text, a pure function of the four analysis results, the window
bound strings and the generation timestamp. -/
def composeSummary (startS endS now : String) (m? : Option Metrics)
    (denials : List DenialPattern) (leak : Leakage) (payers : List PayerRow) :
    String :=
  "\nREVENUE CYCLE EXECUTIVE SUMMARY\n" ++
  "Period: " ++ startS ++ " to " ++ endS ++ "\n" ++
  "Generated: " ++ now ++ "\n\n" ++
  sep70 ++ "\nKEY PERFORMANCE INDICATORS\n" ++ sep70 ++ "\n\n" ++
  "Volume Metrics:\n" ++
  "  • Total Claims Submitted: " ++ toString (mN m? Metrics.total_claims) ++ "\n" ++
  "  • Claims Paid: " ++ toString (mN m? Metrics.paid_claims) ++ "\n" ++
  "  • Claims Denied: " ++ toString (mN m? Metrics.denied_claims) ++ "\n\n" ++
  "Financial Performance:\n" ++
  "  • Total Charges: $" ++ fmtOpt 2 (mQ m? Metrics.total_charges) ++ "\n" ++
  "  • Total Collections: $" ++ fmtOpt 2 (mQ m? Metrics.total_payments) ++ "\n" ++
  "  • Net Collection Rate: " ++ fmtOpt 1 (mQ m? Metrics.net_collection_rate) ++ "%\n" ++
  "  • Gross Collection Rate: " ++ fmtOpt 1 (mQ m? Metrics.gross_collection_rate) ++ "%\n\n" ++
  "Quality Metrics:\n" ++
  "  • Clean Claim Rate: " ++ fmtOpt 1 (mQ m? Metrics.clean_claim_rate) ++ "%\n" ++
  "  • Denial Rate: " ++ fmtOpt 1 (mQ m? Metrics.denial_rate) ++ "%\n" ++
  "  • Average Days to Payment: " ++ fmtOpt 1 (mQ m? Metrics.avg_days_to_payment) ++ " days\n\n" ++
  "Accounts Receivable:\n" ++
  "  • Total AR: $" ++ fmtOpt 2 (mQ m? Metrics.total_ar) ++ "\n" ++
  "  • AR > 90 Days: $" ++ fmtOpt 2 (mQ m? Metrics.ar_over_90) ++ " (" ++
    fmtOpt 1 (mQ m? Metrics.ar_over_90_pct) ++ "%)\n" ++
  "  • Days in AR: " ++ fmtOpt 1 (mQ m? Metrics.days_in_ar) ++ " days\n\n" ++
  sep70 ++ "\nTOP DENIAL REASONS\n" ++ sep70 ++ "\n\n" ++
  String.join (((denials.take 5).enum).map (fun p => denialLine p.1 p.2)) ++
  "\n" ++ sep70 ++ "\nREVENUE LEAKAGE OPPORTUNITIES\n" ++ sep70 ++ "\n\n" ++
  "Unbilled Encounters: " ++ toString leak.unbilled_encounters.length ++ " encounters\n" ++
  "  • Potential Revenue: $" ++ fmtFixed 2 (sumExpectedCharge leak.unbilled_encounters) ++ "\n\n" ++
  "Underpayments: " ++ toString leak.underpayments.length ++ " claims\n" ++
  "  • Variance Amount: $" ++ fmtFixed 2 (sumVariance leak.underpayments) ++ "\n\n" ++
  "Old AR (>90 days): " ++ toString leak.old_ar.length ++ " claims\n" ++
  "  • Outstanding Amount: $" ++ fmtFixed 2 (sumOutstanding leak.old_ar) ++ "\n\n" ++
  "TOTAL LEAKAGE: $" ++ fmtFixed 2 (sumExpectedCharge leak.unbilled_encounters +
    sumVariance leak.underpayments + sumOutstanding leak.old_ar) ++ "\n\n" ++
  sep70 ++ "\nTOP PERFORMING PAYERS\n" ++ sep70 ++ "\n\n" ++
  String.join (((payers.take 5).enum).map (fun p => payerLine p.1 p.2)) ++
  "\n" ++ sep70 ++ "\n"

/-- Connection-lifecycle events observable on the gateway. -/
inductive Ev where
  | connect
  | disconnect
  deriving DecidableEq

/-- The control-flow skeleton of `generate_executive_summary` after a
successful `connect`: the four analyses run in sequence inside `try`, each of
which may raise; the `finally` clause closes the connection on every exit
path, so each branch of the translation records a `disconnect` as its final
event. -/
def summaryControlFlow {α₁ α₂ α₃ α₄ : Type}
    (r1 : Except String α₁) (r2 : Except String α₂)
    (r3 : Except String α₃) (r4 : Except String α₄)
    (compose : α₁ → α₂ → α₃ → α₄ → String) :
    Except String String × List Ev :=
  match r1 with
  | .error e => (.error e, [Ev.connect, Ev.disconnect])
  | .ok a =>
    match r2 with
    | .error e => (.error e, [Ev.connect, Ev.disconnect])
    | .ok b =>
      match r3 with
      | .error e => (.error e, [Ev.connect, Ev.disconnect])
      | .ok c =>
        match r4 with
        | .error e => (.error e, [Ev.connect, Ev.disconnect])
        | .ok d => (.ok (compose a b c d), [Ev.connect, Ev.disconnect])

/-- Python `generate_executive_summary`: the window bounds are rendered into the
`Period:` line; `cutoff6` and `cutoff12` are the resolved 6- and 12-month
lookback cutoffs; `now` is the `datetime.now()` timestamp string. -/
def generate_executive_summary (s : Snapshot) (today cutoff6 cutoff12 startD endD : ℤ)
    (now : String) : Except String String × List Ev :=
  summaryControlFlow
    (calculate_revenue_metrics s today startD endD)
    (.ok (analyze_denial_patterns s cutoff6))
    (.ok (identify_revenue_leakage s today))
    (.ok (payer_performance_analysis s cutoff12))
    (fun m? denials leak payers =>
      composeSummary (toString startD) (toString endD) now m? denials leak payers)

/-! ## Specification-side definitions

Definitions written from the spec's own wording, to be compared with the
query translations above. -/

/-- Modelled from the spec (§4.3): each unbilled-encounter row is tagged with
a single bottleneck label chosen by first-match priority — missing
documentation → incomplete coding → charges not entered → claim not
generated. -/
def specFirstMatchLabel (e : Encounter) : Option String :=
  if !e.documentation_complete then some "Missing Documentation"
  else if !e.coding_complete then some "Coding Incomplete"
  else if !e.charge_entered then some "Charges Not Entered"
  else some "Claim Not Generated"

/-- Modelled from the spec (§4.4): rating assignment, first matching rule
wins, evaluated in this order: Excellent (reimbursement ≥ 95, denial ≤ 5,
days to payment ≤ 30), Good (reimbursement ≥ 85, denial ≤ 10), Fair
(reimbursement ≥ 75, denial ≤ 15), else Poor. -/
def ratingSpec (reimbursement_rate denial_rate avg_days : Option ℚ) : String :=
  if optGE reimbursement_rate 95 && optLE denial_rate 5 && optLE avg_days 30 then "Excellent"
  else if optGE reimbursement_rate 85 && optLE denial_rate 10 then "Good"
  else if optGE reimbursement_rate 75 && optLE denial_rate 15 then "Fair"
  else "Poor"

/-- Data hygiene assumed from the spec's data model (§3, §6): the ids of
`claims`, `denials` and `payers` are keys of their tables. -/
def NodupKeys (s : Snapshot) : Prop :=
  (s.claims.map Claim.claim_id).Nodup ∧
  (s.denials.map Denial.denial_id).Nodup ∧
  (s.payers.map Payer.payer_id).Nodup

instance (s : Snapshot) : Decidable (NodupKeys s) := by
  unfold NodupKeys; infer_instance

/-- Amount sanity of one claim: non-negative amounts, payments within the
charged and (when known) allowed amounts, and no payment recorded against an
unknown allowed amount.  (The §3 invariant on collection rates fails without
it — see the C1 counterexample.) -/
def wellFormedAmounts (c : Claim) : Bool :=
  (0 ≤ c.charge_amount) &&
  (match c.allowed_amount with
   | some a => 0 ≤ a
   | none => true) &&
  (match c.paid_amount with
   | some p => (0 ≤ p) && (p ≤ c.charge_amount) &&
       (match c.allowed_amount with
        | some a => p ≤ a
        | none => false)
   | none => true)

/-! ## Concrete example data (for witnesses and counterexamples) -/

/-- The empty data snapshot. -/
def snapE : Snapshot := ⟨[], [], [], []⟩

def exClaim (i : Nat) : Claim :=
  { claim_id := i, patient_id := i, payer_id := 1, status := "PAID",
    charge_amount := 100, allowed_amount := some 80, paid_amount := some 80,
    adjustment_amount := 0, patient_responsibility := some 0,
    submission_date := 50, payment_date := some 60 }

def exDenial (i : Nat) : Denial :=
  { denial_id := 1000 + i, claim_id := i, denial_category := "Authorization",
    denial_reason_code := "A1", denial_reason_description := "No prior authorization",
    denial_date := 150, denied_amount := 100 + i, work_status := "RESOLVED",
    resolution_type := if i < 2 then "APPEALED_WON" else "APPEALED_LOST",
    recovered_amount := if i < 2 then 50 else 0, preventable := decide (i % 2 = 0) }

def encEx1 : Encounter :=
  { encounter_id := 1, patient_id := 1, provider_id := 1, encounter_date := 170,
    expected_charge := 500, documentation_complete := false, coding_complete := false,
    charge_entered := false, claim_generated := false }

def encEx2 : Encounter :=
  { encounter_id := 2, patient_id := 2, provider_id := 2, encounter_date := 180,
    expected_charge := 300, documentation_complete := true, coding_complete := true,
    charge_entered := false, claim_generated := false }

/-- A healthy snapshot: one payer with 100 paid claims, five denials in one
pattern group, two unbilled encounters. -/
def snapEx : Snapshot :=
  { claims := (List.range 100).map exClaim
    denials := (List.range 5).map exDenial
    payers := [{ payer_id := 1, payer_name := "Acme Health", payer_type := "Commercial" }]
    encounters := [encEx1, encEx2] }

/-- One paid claim collected above its allowed amount: charge 100, allowed
50, paid 100. -/
def snapOverpaid : Snapshot :=
  { claims := [{ claim_id := 1, patient_id := 1, payer_id := 1, status := "PAID",
                 charge_amount := 100, allowed_amount := some 50, paid_amount := some 100,
                 adjustment_amount := 0, patient_responsibility := some 0,
                 submission_date := 10, payment_date := some 20 }]
    denials := [], payers := [], encounters := [] }

/-- A window with zero total payments (one paid claim paid 0) and a non-NULL
AR balance (one open claim). -/
def snapZeroPay : Snapshot :=
  { claims := [{ claim_id := 1, patient_id := 1, payer_id := 1, status := "PAID",
                 charge_amount := 50, allowed_amount := some 50, paid_amount := some 0,
                 adjustment_amount := 0, patient_responsibility := some 0,
                 submission_date := 10, payment_date := some 20 },
               { claim_id := 2, patient_id := 2, payer_id := 1, status := "SUBMITTED",
                 charge_amount := 100, allowed_amount := none, paid_amount := none,
                 adjustment_amount := 0, patient_responsibility := none,
                 submission_date := 5, payment_date := none }]
    denials := [], payers := [], encounters := [] }

/-- One claim whose submission date lies outside the `[0, 20]` window. -/
def snapOutside : Snapshot :=
  { claims := [{ claim_id := 1, patient_id := 1, payer_id := 1, status := "SUBMITTED",
                 charge_amount := 100, allowed_amount := none, paid_amount := none,
                 adjustment_amount := 0, patient_responsibility := none,
                 submission_date := 100, payment_date := none }]
    denials := [], payers := [], encounters := [] }

/-- The KPI row produced for `snapOutside` over the window `[0, 20]` with
`today = 30`: zero counts, NULL aggregates, plus the window-independent AR
figures. -/
def exMetricsOutside : Metrics :=
  { total_claims := 0, paid_claims := 0, denied_claims := 0,
    total_charges := none, total_allowed := none,
    total_payments := none, total_adjustments := none,
    avg_days_to_payment := none, total_ar := some 100, ar_over_90 := some 0,
    clean_claim_rate := none, denial_rate := none,
    net_collection_rate := none, gross_collection_rate := none,
    ar_over_90_pct := some 0, days_in_ar := none }

/-- The KPI row produced for `snapEx` over the window `[0, 100]` with
`today = 200`. -/
def exMetrics : Metrics :=
  { total_claims := 100, paid_claims := 100, denied_claims := 0,
    total_charges := some 10000, total_allowed := some 8000,
    total_payments := some 8000, total_adjustments := some 0,
    avg_days_to_payment := some 10, total_ar := none, ar_over_90 := none,
    clean_claim_rate := some 100, denial_rate := some 0,
    net_collection_rate := some 100, gross_collection_rate := some 80,
    ar_over_90_pct := none, days_in_ar := none }

/-- The scorecard row produced for `snapEx`'s single payer. -/
def exPayerRow : PayerRow :=
  { payer_name := "Acme Health", payer_type := "Commercial", total_claims := 100,
    total_payments := some 8000, reimbursement_rate := some 100, denial_rate := some 0,
    clean_claim_rate := some 95, avg_days_to_payment := some 10,
    performance_rating := "Excellent" }

/-! ## Theorems -/

/-- C7: The total leakage figure computed by `identify_revenue_leakage` (and
printed in the report) equals the sum of the three category totals: the sum of
`expected_charge` over unbilled encounters, plus the sum of signed `variance`
over underpayments, plus the sum of `outstanding` over aged-AR rows. -/
theorem C7_total_leakage_is_sum_of_categories (s : Snapshot) (today : ℤ) :
    (identify_revenue_leakage s today).total_leakage =
      sumExpectedCharge (identify_revenue_leakage s today).unbilled_encounters +
      sumVariance (identify_revenue_leakage s today).underpayments +
      sumOutstanding (identify_revenue_leakage s today).old_ar := rfl

/-- C9: on every execution path through `generate_executive_summary` after a
successful connect — including paths where any of the four analyses raises an
error — the connection is released (`disconnect` is the final gateway event)
before the call returns or propagates the error. -/
theorem C9_disconnect_on_every_path :
    (∀ (α₁ α₂ α₃ α₄ : Type) (r1 : Except String α₁) (r2 : Except String α₂)
        (r3 : Except String α₃) (r4 : Except String α₄)
        (compose : α₁ → α₂ → α₃ → α₄ → String),
      (summaryControlFlow r1 r2 r3 r4 compose).2.getLast? = some Ev.disconnect) ∧
    (∀ (s : Snapshot) (today c6 c12 startD endD : ℤ) (now : String),
      (generate_executive_summary s today c6 c12 startD endD now).2.getLast? =
        some Ev.disconnect) := by
  constructor
  · intro α₁ α₂ α₃ α₄ r1 r2 r3 r4 compose
    cases r1 <;> cases r2 <;> cases r3 <;> cases r4 <;> rfl
  · intro s today c6 c12 startD endD now
    unfold generate_executive_summary
    cases calculate_revenue_metrics s today startD endD <;> rfl

/-- C6: every unbilled-encounter row of `identify_revenue_leakage` comes from
an encounter passing the unbilled filter and carries the label assigned by
strict first-match priority over the four completion flags; in particular an
encounter with both incomplete documentation and incomplete coding is labeled
"Missing Documentation", never "Coding Incomplete". -/
theorem C6_bottleneck_first_match (s : Snapshot) (today : ℤ) (r : UnbilledRow)
    (hr : r ∈ (identify_revenue_leakage s today).unbilled_encounters) :
    ∃ e, e ∈ s.encounters ∧ unbilledFilter today e = true ∧
      r = mkUnbilledRow today e ∧ r.bottleneck = specFirstMatchLabel e ∧
      (e.documentation_complete = false →
        r.bottleneck = some "Missing Documentation" ∧
        r.bottleneck ≠ some "Coding Incomplete") := by
  have hr' : r ∈ (s.encounters.filter (unbilledFilter today)).map (mkUnbilledRow today) := by
    simpa [identify_revenue_leakage, unbilledEncounters] using hr
  obtain ⟨e, he, rfl⟩ := List.mem_map.mp hr'
  obtain ⟨he1, he2⟩ := List.mem_filter.mp he
  have hcg : e.claim_generated = false := by
    simp only [unbilledFilter, Bool.and_eq_true, Bool.not_eq_true'] at he2
    exact he2.2
  refine ⟨e, he1, he2, rfl, ?_, ?_⟩
  · show caseBottleneck e = specFirstMatchLabel e
    cases hd : e.documentation_complete <;> cases hc : e.coding_complete <;>
      cases hch : e.charge_entered <;>
      simp [caseBottleneck, specFirstMatchLabel, hd, hc, hch, hcg]
  · intro hdoc
    constructor
    · show caseBottleneck e = some "Missing Documentation"
      simp [caseBottleneck, hdoc]
    · show caseBottleneck e ≠ some "Coding Incomplete"
      simp [caseBottleneck, hdoc]

/-- C10: every unbilled-encounter row returned by `identify_revenue_leakage`
carries a non-null bottleneck label: the result set is restricted to
encounters whose claim has not been generated, so the four-branch `CASE` is
exhaustive there. -/
theorem C10_bottleneck_is_some (s : Snapshot) (today : ℤ) (r : UnbilledRow)
    (hr : r ∈ (identify_revenue_leakage s today).unbilled_encounters) :
    r.bottleneck.isSome = true := by
  have hr' : r ∈ (s.encounters.filter (unbilledFilter today)).map (mkUnbilledRow today) := by
    simpa [identify_revenue_leakage, unbilledEncounters] using hr
  obtain ⟨e, he, rfl⟩ := List.mem_map.mp hr'
  obtain ⟨-, he2⟩ := List.mem_filter.mp he
  have hcg : e.claim_generated = false := by
    simp only [unbilledFilter, Bool.and_eq_true, Bool.not_eq_true'] at he2
    exact he2.2
  show (caseBottleneck e).isSome = true
  cases hd : e.documentation_complete <;> cases hc : e.coding_complete <;>
    cases hch : e.charge_entered <;>
    simp [caseBottleneck, hd, hc, hch, hcg]

/-- C4: every row returned by `payer_performance_analysis` has
`total_claims ≥ 100`, and its `performance_rating` is the deterministic
first-match result of the ordered §4.4 rules applied to its reimbursement
rate, denial rate and average days to payment. -/
theorem C4_payer_threshold_and_rating (s : Snapshot) (cutoff : ℤ) (r : PayerRow)
    (hr : r ∈ payer_performance_analysis s cutoff) :
    100 ≤ r.total_claims ∧
    r.performance_rating =
      ratingSpec r.reimbursement_rate r.denial_rate r.avg_days_to_payment := by
  have hr' : r ∈ ((((payerJoinRows s cutoff).map pKey).dedup.map (fun k =>
      mkPayerMetrics s k ((payerJoinRows s cutoff).filter (fun x => pKey x = k)))).filter
        (fun m => 100 ≤ m.total_claims)).map mkPayerRow := by
    simpa [payer_performance_analysis] using hr
  obtain ⟨m, hm, rfl⟩ := List.mem_map.mp hr'
  obtain ⟨-, hm2⟩ := List.mem_filter.mp hm
  exact ⟨by simpa using hm2, rfl⟩

/-- Witness for C4: the scorecard row of `snapEx`'s payer (100 claims, rated
Excellent). -/
theorem C4_witness :
    100 ≤ exPayerRow.total_claims ∧
    exPayerRow.performance_rating =
      ratingSpec exPayerRow.reimbursement_rate exPayerRow.denial_rate
        exPayerRow.avg_days_to_payment :=
  C4_payer_threshold_and_rating snapEx 0 exPayerRow (by
    unfold payer_performance_analysis
    exact List.mem_mergeSort.mpr (by decide))

/-- Witness for C6: the doubly-incomplete encounter of `snapEx` is labeled
Missing Documentation. -/
theorem C6_witness :
    ∃ e, e ∈ snapEx.encounters ∧ unbilledFilter 200 e = true ∧
      mkUnbilledRow 200 encEx1 = mkUnbilledRow 200 e ∧
      (mkUnbilledRow 200 encEx1).bottleneck = specFirstMatchLabel e ∧
      (e.documentation_complete = false →
        (mkUnbilledRow 200 encEx1).bottleneck = some "Missing Documentation" ∧
        (mkUnbilledRow 200 encEx1).bottleneck ≠ some "Coding Incomplete") :=
  C6_bottleneck_first_match snapEx 200 (mkUnbilledRow 200 encEx1) (by
    show mkUnbilledRow 200 encEx1 ∈ unbilledEncounters snapEx 200
    unfold unbilledEncounters
    exact List.mem_mergeSort.mpr (by decide))

/-- Witness for C10 at the same concrete row. -/
theorem C10_witness :
    (mkUnbilledRow 200 encEx1).bottleneck.isSome = true :=
  C10_bottleneck_is_some snapEx 200 (mkUnbilledRow 200 encEx1) (by
    show mkUnbilledRow 200 encEx1 ∈ unbilledEncounters snapEx 200
    unfold unbilledEncounters
    exact List.mem_mergeSort.mpr (by decide))

/-- A list whose keys are distinct has at most one element with any given
key. -/
theorem length_filter_key_le_one {α κ : Type} [DecidableEq κ] (f : α → κ)
    (l : List α) (h : (l.map f).Nodup) (k : κ) :
    (l.filter (fun x => f x = k)).length ≤ 1 := by
  induction l with
  | nil => simp
  | cons a t ih =>
    simp only [List.map_cons, List.nodup_cons] at h
    by_cases hak : f a = k
    · have ht : t.filter (fun x => f x = k) = [] := by
        rw [List.filter_eq_nil_iff]
        intro x hx hfx
        exact h.1 (hak ▸ (by simpa using hfx) ▸ List.mem_map_of_mem f hx)
      simp [List.filter_cons, hak, ht]
    · simpa [List.filter_cons, hak] using ih h.2

/-- A block-structured join in which each block has at most one row, all rows
of a block share the block's key, and block keys are distinct, has distinct
row keys. -/
theorem flatMap_key_nodup {α β κ : Type} [DecidableEq κ] (g : β → κ) (fkey : α → κ)
    (l : List α) (blk : α → List β)
    (hnd : (l.map fkey).Nodup)
    (hlen : ∀ a, (blk a).length ≤ 1)
    (hkey : ∀ a, ∀ x ∈ blk a, g x = fkey a) :
    ((l.flatMap blk).map g).Nodup := by
  induction l with
  | nil => simp
  | cons a t ih =>
    simp only [List.map_cons, List.nodup_cons] at hnd
    rw [List.flatMap_cons, List.map_append]
    refine List.Nodup.append ?_ (ih hnd.2) ?_
    · have := hlen a
      cases hb : blk a with
      | nil => simp
      | cons x xs =>
        rw [hb] at this
        simp only [List.length_cons] at this
        have hxs : xs = [] := List.length_eq_zero.mp (by omega)
        simp [hxs]
    · intro y hy1 hy2
      obtain ⟨x, hx, rfl⟩ := List.mem_map.mp hy1
      obtain ⟨z, hz, hgz⟩ := List.mem_map.mp hy2
      obtain ⟨b, hb, hzb⟩ := List.mem_flatMap.mp hz
      apply hnd.1
      have h1 : g x = fkey a := hkey a x hx
      have h2 : g z = fkey b := hkey b z hzb
      rw [← h1, ← hgz, h2]
      exact List.mem_map_of_mem fkey hb

/-- Within one denial-pattern group, distinct table keys force the
`HAVING COUNT(d.denial_id)` row count and the selected
`COUNT(DISTINCT d.denial_id)` to agree. -/
theorem denialJoinRows_ids_nodup (s : Snapshot) (cutoff : ℤ) (h : NodupKeys s) :
    ((denialJoinRows s cutoff).map (fun x => x.1.denial_id)).Nodup := by
  obtain ⟨hc, hd, hp⟩ := h
  unfold denialJoinRows
  refine flatMap_key_nodup (fun x => x.1.denial_id) Denial.denial_id
    (s.denials.filter (fun d => cutoff ≤ d.denial_date))
    (fun d => (s.claims.filter (fun c => c.claim_id = d.claim_id)).flatMap fun c =>
      (s.payers.filter (fun p => p.payer_id = c.payer_id)).map fun p => (d, c, p))
    (((List.filter_sublist _).map Denial.denial_id).nodup hd) ?_ ?_
  · intro d
    have hcl := length_filter_key_le_one Claim.claim_id s.claims hc d.claim_id
    cases hfc : s.claims.filter (fun c => c.claim_id = d.claim_id) with
    | nil => simp [hfc]
    | cons c cs =>
      rw [hfc] at hcl
      simp only [List.length_cons] at hcl
      have hcs : cs = [] := List.length_eq_zero.mp (by omega)
      subst hcs
      have hpl := length_filter_key_le_one Payer.payer_id s.payers hp c.payer_id
      simpa [hfc] using hpl
  · intro d x hx
    obtain ⟨c, -, hx2⟩ := List.mem_flatMap.mp hx
    obtain ⟨p, -, rfl⟩ := List.mem_map.mp hx2
    rfl

/-- C5: in the sequence returned by `analyze_denial_patterns`,
`total_denied` is monotonically non-increasing from first row to last, and —
given distinct table keys — no returned row has `denial_count < 5`. -/
theorem C5_ordering_and_threshold (s : Snapshot) (cutoff : ℤ) (h : NodupKeys s) :
    (analyze_denial_patterns s cutoff).Pairwise
      (fun a b => b.total_denied ≤ a.total_denied) ∧
    ∀ r ∈ analyze_denial_patterns s cutoff, 5 ≤ r.denial_count := by
  constructor
  · show (List.mergeSort _ _).Pairwise _
    have hs := @List.sorted_mergeSort DenialPattern
      (fun a b : DenialPattern => decide (b.total_denied ≤ a.total_denied))
      (by intro a b c h1 h2
          simp only [decide_eq_true_eq] at h1 h2 ⊢
          exact le_trans h2 h1)
      (by intro a b
          simp only [Bool.or_eq_true, decide_eq_true_eq]
          exact le_total _ _)
      (((denialGroupRows s cutoff).filter (fun g => 5 ≤ g.2.length)).map
        (fun g => mkDenialRow g.1 g.2))
    exact hs.imp (by intro a b hab; simpa using hab)
  · intro r hr
    have hr' : r ∈ (((denialGroupRows s cutoff).filter (fun g => 5 ≤ g.2.length)).map
        (fun g => mkDenialRow g.1 g.2)) := by
      simpa [analyze_denial_patterns] using hr
    obtain ⟨⟨k, g⟩, hkg, rfl⟩ := List.mem_map.mp hr'
    obtain ⟨hmem, hlen⟩ := List.mem_filter.mp hkg
    obtain ⟨k', -, hk'⟩ := List.mem_map.mp hmem
    have hg : g = (denialJoinRows s cutoff).filter (fun x => dKey x = k') :=
      (congrArg Prod.snd hk').symm
    have hlen' : 5 ≤ g.length := by simpa using hlen
    have hnd : (g.map (fun x => x.1.denial_id)).Nodup := by
      have hsub : (g.map (fun x => x.1.denial_id)).Sublist
          ((denialJoinRows s cutoff).map (fun x => x.1.denial_id)) := by
        rw [hg]
        exact (List.filter_sublist (denialJoinRows s cutoff)).map _
      exact hsub.nodup (denialJoinRows_ids_nodup s cutoff h)
    show 5 ≤ countDistinct ((g.map Prod.fst).map Denial.denial_id)
    have hmm : (g.map Prod.fst).map Denial.denial_id = g.map (fun x => x.1.denial_id) := by
      rw [List.map_map]
      rfl
    rw [hmm]
    unfold countDistinct
    rw [List.Nodup.dedup hnd, List.length_map]
    exact hlen'

/-- Witness for C5 at the concrete snapshot `snapEx` (five denials in one
pattern group). -/
theorem C5_witness :
    (analyze_denial_patterns snapEx 100).Pairwise
      (fun a b => b.total_denied ≤ a.total_denied) ∧
    ∀ r ∈ analyze_denial_patterns snapEx 100, 5 ≤ r.denial_count :=
  C5_ordering_and_threshold snapEx 100 (by decide)

/-- Half-away-from-zero rounding to two decimals preserves the `[0, 100]`
percentage range. -/
theorem round2_nonneg_le_100 {q : ℚ} (h0 : 0 ≤ q) (h100 : q ≤ 100) :
    0 ≤ round2 q ∧ round2 q ≤ 100 := by
  have hq : (0:ℚ) ≤ q * ((10 : ℚ) ^ 2) := by positivity
  unfold round2 roundTo rnd0
  push_cast
  rw [if_pos (by push_cast; positivity)]
  constructor
  · apply div_nonneg _ (by norm_num)
    have h1 : (0:ℤ) ≤ ⌊q * ((10:ℚ) ^ 2 : ℚ) + 1/2⌋ := Int.floor_nonneg.mpr (by positivity)
    push_cast
    exact_mod_cast Int.floor_nonneg.mpr (by positivity)
  · rw [div_le_iff (by norm_num)]
    have hmono : ⌊q * (((10:ℕ) ^ 2 : ℕ) : ℚ) + 1/2⌋ ≤ ⌊(10000 : ℚ) + 1/2⌋ := by
      apply Int.floor_le_floor
      push_cast
      linarith
    have hval : ⌊(10000 : ℚ) + 1/2⌋ = 10000 := by
      rw [Int.floor_eq_iff] <;> norm_num
    rw [hval] at hmono
    have : ((⌊q * (((10:ℕ) ^ 2 : ℕ) : ℚ) + 1/2⌋ : ℤ) : ℚ) ≤ (10000 : ℚ) := by
      exact_mod_cast hmono
    push_cast at this ⊢
    linarith

/-- The percentage-rate idiom stays in `[0, 100]` when `0 ≤ num ≤ den`. -/
theorem pctRate_mem_Icc {num den r : ℚ} (hnum : 0 ≤ num) (hle : num ≤ den)
    (h : pctRate (some num) (some den) = some r) : 0 ≤ r ∧ r ≤ 100 := by
  unfold pctRate divNullif at h
  by_cases hd : den = 0
  · simp [hd] at h
  · simp only [hd, if_false, Option.map_some] at h
    have hr : round2 (num / den * 100) = r := Option.some_inj.mp h
    have hden : 0 < den := lt_of_le_of_ne (le_trans hnum hle) (Ne.symm hd)
    have h1 : 0 ≤ num / den * 100 := by positivity
    have h2 : num / den * 100 ≤ 100 := by
      have hd1 : num / den ≤ 1 := (div_le_one hden).mpr hle
      linarith
    rw [← hr]
    exact round2_nonneg_le_100 h1 h2

/-- A `COUNT(DISTINCT ...)` over a sub-collection of keys is no larger. -/
theorem countDistinct_le_of_subset {l₁ l₂ : List Nat} (h : l₁ ⊆ l₂) :
    countDistinct l₁ ≤ countDistinct l₂ := by
  unfold countDistinct
  rw [← List.card_toFinset, ← List.card_toFinset]
  exact Finset.card_le_card (fun x hx =>
    List.mem_toFinset.mpr (h (List.mem_toFinset.mp hx)))

/-- Under well-formed amounts, the three `SUM`s of the windowed claims
compare as expected: payments are non-negative and bounded by allowed and by
charges. -/
theorem sums_of_wellFormed (l : List Claim)
    (hwf : ∀ c ∈ l, wellFormedAmounts c = true) :
    0 ≤ (l.filterMap Claim.paid_amount).sum ∧
    (l.filterMap Claim.paid_amount).sum ≤ (l.filterMap Claim.allowed_amount).sum ∧
    0 ≤ (l.filterMap Claim.allowed_amount).sum ∧
    (l.filterMap Claim.paid_amount).sum ≤ (l.map Claim.charge_amount).sum ∧
    0 ≤ (l.map Claim.charge_amount).sum := by
  induction l with
  | nil => simp
  | cons c t ih =>
    obtain ⟨h1, h2, h3, h4, h5⟩ := ih (fun x hx => hwf x (List.mem_cons_of_mem c hx))
    have hc := hwf c (List.mem_cons_self c t)
    cases hp : c.paid_amount with
    | none =>
      cases ha : c.allowed_amount with
      | none =>
        have hch : 0 ≤ c.charge_amount := by
          simpa [wellFormedAmounts, hp, ha] using hc
        simp only [List.filterMap_cons, hp, ha, List.map_cons, List.sum_cons]
        exact ⟨h1, h2, h3, by linarith, by linarith⟩
      | some a =>
        have hc' : 0 ≤ c.charge_amount ∧ 0 ≤ a := by
          simpa [wellFormedAmounts, hp, ha] using hc
        simp only [List.filterMap_cons, hp, ha, List.map_cons, List.sum_cons]
        exact ⟨h1, by linarith [hc'.2], by linarith [hc'.2],
          by linarith [hc'.1], by linarith [hc'.1]⟩
    | some p =>
      cases ha : c.allowed_amount with
      | none =>
        exact absurd hc (by simp [wellFormedAmounts, hp, ha])
      | some a =>
        have hc' : (0 ≤ c.charge_amount ∧ 0 ≤ a) ∧ (0 ≤ p ∧ p ≤ c.charge_amount) ∧ p ≤ a := by
          simpa [wellFormedAmounts, hp, ha, and_assoc] using hc
        obtain ⟨⟨hch, ha0⟩, ⟨hp0, hpch⟩, hpa⟩ := hc'
        simp only [List.filterMap_cons, hp, ha, List.map_cons, List.sum_cons]
        exact ⟨by linarith, by linarith, by linarith, by linarith, by linarith⟩

/-- Under well-formed amounts every open claim carries a non-negative
outstanding balance, so the over-90-days slice of AR is between `0` and the
whole of AR. -/
theorem ar_sums_of_wellFormed (l : List Claim) (today : ℤ)
    (hwf : ∀ c ∈ l, wellFormedAmounts c = true) :
    0 ≤ (l.map (fun c => if today - c.submission_date > 90 then outstanding c else 0)).sum ∧
    (l.map (fun c => if today - c.submission_date > 90 then outstanding c else 0)).sum ≤
      (l.map outstanding).sum := by
  induction l with
  | nil => simp
  | cons c t ih =>
    obtain ⟨h1, h2⟩ := ih (fun x hx => hwf x (List.mem_cons_of_mem c hx))
    have hc := hwf c (List.mem_cons_self c t)
    have hout : 0 ≤ outstanding c := by
      unfold outstanding
      cases hp : c.paid_amount with
      | none =>
        have hch : 0 ≤ c.charge_amount := by
          cases ha : c.allowed_amount with
          | none => simpa [wellFormedAmounts, hp, ha] using hc
          | some a =>
            have hc' : 0 ≤ c.charge_amount ∧ 0 ≤ a := by
              simpa [wellFormedAmounts, hp, ha] using hc
            exact hc'.1
        simpa using hch
      | some p =>
        cases ha : c.allowed_amount with
        | none => exact absurd hc (by simp [wellFormedAmounts, hp, ha])
        | some a =>
          have hc' : (0 ≤ c.charge_amount ∧ 0 ≤ a) ∧ (0 ≤ p ∧ p ≤ c.charge_amount) ∧ p ≤ a := by
            simpa [wellFormedAmounts, hp, ha, and_assoc] using hc
          simp only [Option.getD_some]
          linarith [hc'.2.1.2]
    simp only [List.map_cons, List.sum_cons]
    by_cases hold : today - c.submission_date > 90 <;> simp only [hold, if_true, if_false] <;>
      constructor <;> linarith

/-- SQL `SUM` inversion: a non-NULL SQL sum is the sum of the non-NULL inputs. -/
theorem sqlSum_eq_some {l : List (Option ℚ)} {x : ℚ} (h : sqlSum l = some x) :
    x = (l.filterMap id).sum := by
  unfold sqlSum at h
  by_cases he : (l.filterMap id).isEmpty
  · simp [he] at h
  · simp only [he, if_false] at h
    exact (Option.some_inj.mp h).symm

/-- Any successful run of the metrics query returns the single
`claim_summary × ar_summary` row, with some value in `days_in_ar`. -/
theorem calc_ok_shape (s : Snapshot) (today startD endD : ℤ) (o : Option Metrics)
    (h : calculate_revenue_metrics s today startD endD = .ok o) :
    ∃ dar, o = some { metricsRow s today startD endD with days_in_ar := dar } := by
  unfold calculate_revenue_metrics metricsQueryRows at h
  cases hdar : daysInAr (metricsRow s today startD endD).total_ar
      (metricsRow s today startD endD).total_payments startD endD with
  | error e =>
    rw [hdar] at h
    simp [Bind.bind, Except.bind] at h
  | ok dar =>
    rw [hdar] at h
    simp only [Bind.bind, Except.bind, Except.pure, pure] at h
    exact ⟨dar, (Except.ok.injEq _ _ ▸ h : _ = o).symm⟩

/-- A count-over-count percentage with `NULLIF`-guarded denominator stays in
`[0, 100]` when the numerator counts a sub-population. -/
theorem count_pctRate_bounded {k n : Nat} (hkn : k ≤ n) {r : ℚ}
    (h : pctRate (some (k : ℚ)) (if n = 0 then none else some (n : ℚ)) = some r) :
    0 ≤ r ∧ r ≤ 100 := by
  by_cases h0 : n = 0
  · rw [if_pos h0] at h
    simp [pctRate, divNullif] at h
  · rw [if_neg h0] at h
    exact pctRate_mem_Icc (by positivity) (by exact_mod_cast hkn) h

/-- Presence of a count-based rate: defined exactly when the count inside
the `NULLIF` guard is non-zero. -/
theorem count_pctRate_isSome (k n : Nat) :
    (pctRate (some (k : ℚ)) (if n = 0 then none else some (n : ℚ))).isSome = true ↔
      n ≠ 0 := by
  by_cases h0 : n = 0
  · simp [h0, pctRate, divNullif]
  · simp [h0, pctRate, divNullif, Nat.cast_eq_zero]

/-- Presence of a sum-based rate: defined exactly when the numerator is
non-NULL and the `NULLIF`-guarded denominator is non-NULL and non-zero. -/
theorem pctRate_isSome_iff (x d : Option ℚ) :
    (pctRate x d).isSome = true ↔
      x.isSome = true ∧ ∃ v, d = some v ∧ v ≠ 0 := by
  cases x with
  | none => cases d <;> simp [pctRate, divNullif]
  | some a =>
    cases d with
    | none => simp [pctRate, divNullif]
    | some b => by_cases hb : b = 0 <;> simp [pctRate, divNullif, hb]

/-- C1 (amended): for any window, a successful `calculate_revenue_metrics`
run returns a mapping in which `clean_claim_rate` and `denial_rate` always
lie in `[0, 100]` when present and are present exactly when `total_claims`
is non-zero; each of `net_collection_rate`, `gross_collection_rate` and
`ar_over_90_pct` is present exactly when its numerator sum is non-NULL and
its `NULLIF`-guarded denominator is non-NULL and non-zero, and lies in
`[0, 100]` whenever every claim of the snapshot has well-formed amounts. -/
theorem C1_rates_in_range (s : Snapshot) (today startD endD : ℤ)
    (m : Metrics) (hm : calculate_revenue_metrics s today startD endD = .ok (some m)) :
    ((∀ r ∈ m.clean_claim_rate, 0 ≤ r ∧ r ≤ 100) ∧
     (∀ r ∈ m.denial_rate, 0 ≤ r ∧ r ≤ 100) ∧
     (m.clean_claim_rate.isSome = true ↔ m.total_claims ≠ 0) ∧
     (m.denial_rate.isSome = true ↔ m.total_claims ≠ 0)) ∧
    ((m.net_collection_rate.isSome = true ↔
       m.total_payments.isSome = true ∧ ∃ v, m.total_allowed = some v ∧ v ≠ 0) ∧
     (m.gross_collection_rate.isSome = true ↔
       m.total_payments.isSome = true ∧ ∃ v, m.total_charges = some v ∧ v ≠ 0) ∧
     (m.ar_over_90_pct.isSome = true ↔
       m.ar_over_90.isSome = true ∧ ∃ v, m.total_ar = some v ∧ v ≠ 0)) ∧
    (s.claims.all wellFormedAmounts = true →
     (∀ r ∈ m.net_collection_rate, 0 ≤ r ∧ r ≤ 100) ∧
     (∀ r ∈ m.gross_collection_rate, 0 ≤ r ∧ r ≤ 100) ∧
     (∀ r ∈ m.ar_over_90_pct, 0 ≤ r ∧ r ≤ 100)) := by
  obtain ⟨dar, ho⟩ := calc_ok_shape s today startD endD (some m) hm
  have hmM : m = { metricsRow s today startD endD with days_in_ar := dar } :=
    Option.some_inj.mp ho
  have eTc : m.total_claims =
      countDistinct ((s.claims.filter (inWindow startD endD)).map Claim.claim_id) := by
    rw [hmM]
    rfl
  have eClean : m.clean_claim_rate =
      pctRate (some ((countDistinct (((s.claims.filter (inWindow startD endD)).filter
          (fun c => c.status = "PAID")).map Claim.claim_id) : ℕ) : ℚ))
        (if countDistinct ((s.claims.filter (inWindow startD endD)).map Claim.claim_id) = 0
         then none
         else some ((countDistinct ((s.claims.filter (inWindow startD endD)).map
           Claim.claim_id) : ℕ) : ℚ)) := by
    rw [hmM]
    rfl
  have eDenial : m.denial_rate =
      pctRate (some ((countDistinct (((s.claims.filter (inWindow startD endD)).filter
          (fun c => c.status = "DENIED")).map Claim.claim_id) : ℕ) : ℚ))
        (if countDistinct ((s.claims.filter (inWindow startD endD)).map Claim.claim_id) = 0
         then none
         else some ((countDistinct ((s.claims.filter (inWindow startD endD)).map
           Claim.claim_id) : ℕ) : ℚ)) := by
    rw [hmM]
    rfl
  have ePay : m.total_payments =
      sqlSum ((s.claims.filter (inWindow startD endD)).map Claim.paid_amount) := by
    rw [hmM]
    rfl
  have eAlw : m.total_allowed =
      sqlSum ((s.claims.filter (inWindow startD endD)).map Claim.allowed_amount) := by
    rw [hmM]
    rfl
  have eChg : m.total_charges =
      sqlSum ((s.claims.filter (inWindow startD endD)).map
        (fun c => some c.charge_amount)) := by
    rw [hmM]
    rfl
  have eAr90 : m.ar_over_90 =
      sqlSum ((s.claims.filter isOpen).map (fun c =>
        some (if today - c.submission_date > 90 then outstanding c else 0))) := by
    rw [hmM]
    rfl
  have eAr : m.total_ar =
      sqlSum ((s.claims.filter isOpen).map (fun c => some (outstanding c))) := by
    rw [hmM]
    rfl
  have eNet : m.net_collection_rate =
      pctRate (sqlSum ((s.claims.filter (inWindow startD endD)).map Claim.paid_amount))
        (sqlSum ((s.claims.filter (inWindow startD endD)).map Claim.allowed_amount)) := by
    rw [hmM]
    rfl
  have eGross : m.gross_collection_rate =
      pctRate (sqlSum ((s.claims.filter (inWindow startD endD)).map Claim.paid_amount))
        (sqlSum ((s.claims.filter (inWindow startD endD)).map
          (fun c => some c.charge_amount))) := by
    rw [hmM]
    rfl
  have eArPct : m.ar_over_90_pct =
      pctRate (sqlSum ((s.claims.filter isOpen).map (fun c =>
          some (if today - c.submission_date > 90 then outstanding c else 0))))
        (sqlSum ((s.claims.filter isOpen).map (fun c => some (outstanding c)))) := by
    rw [hmM]
    rfl
  refine ⟨⟨?_, ?_, ?_, ?_⟩, ⟨?_, ?_, ?_⟩, ?_⟩
  · -- clean_claim_rate bound (unconditional)
    intro r hr
    rw [eClean] at hr
    refine count_pctRate_bounded ?_ (Option.mem_def.mp hr)
    exact countDistinct_le_of_subset
      (List.map_subset Claim.claim_id (List.filter_sublist _).subset)
  · -- denial_rate bound (unconditional)
    intro r hr
    rw [eDenial] at hr
    refine count_pctRate_bounded ?_ (Option.mem_def.mp hr)
    exact countDistinct_le_of_subset
      (List.map_subset Claim.claim_id (List.filter_sublist _).subset)
  · -- clean_claim_rate present iff total_claims non-zero
    rw [eClean, eTc]
    exact count_pctRate_isSome _ _
  · -- denial_rate present iff total_claims non-zero
    rw [eDenial, eTc]
    exact count_pctRate_isSome _ _
  · -- net_collection_rate presence
    rw [eNet, ePay, eAlw]
    exact pctRate_isSome_iff _ _
  · -- gross_collection_rate presence
    rw [eGross, ePay, eChg]
    exact pctRate_isSome_iff _ _
  · -- ar_over_90_pct presence
    rw [eArPct, eAr90, eAr]
    exact pctRate_isSome_iff _ _
  intro hwf
  have hwfAll : ∀ c ∈ s.claims, wellFormedAmounts c = true := by
    intro c hc
    exact List.all_eq_true.mp hwf c hc
  have hwfW : ∀ c ∈ s.claims.filter (inWindow startD endD), wellFormedAmounts c = true :=
    fun c hc => hwfAll c (List.mem_of_mem_filter hc)
  have hwfO : ∀ c ∈ s.claims.filter isOpen, wellFormedAmounts c = true :=
    fun c hc => hwfAll c (List.mem_of_mem_filter hc)
  obtain ⟨s1, s2, s3, s4, s5⟩ :=
    sums_of_wellFormed (s.claims.filter (inWindow startD endD)) hwfW
  obtain ⟨a1, a2⟩ := ar_sums_of_wellFormed (s.claims.filter isOpen) today hwfO
  refine ⟨?_, ?_, ?_⟩
  · -- net_collection_rate = total_payments / total_allowed
    intro r hr
    rw [eNet] at hr
    cases hpay : sqlSum ((s.claims.filter (inWindow startD endD)).map Claim.paid_amount) with
    | none => rw [hpay] at hr; simp [pctRate, divNullif] at hr
    | some x =>
      cases halw : sqlSum ((s.claims.filter (inWindow startD endD)).map Claim.allowed_amount) with
      | none => rw [hpay, halw] at hr; simp [pctRate, divNullif] at hr
      | some y =>
        rw [hpay, halw] at hr
        have hx : x = ((s.claims.filter (inWindow startD endD)).filterMap Claim.paid_amount).sum := by
          rw [sqlSum_eq_some hpay, List.filterMap_map]
          rfl
        have hy : y = ((s.claims.filter (inWindow startD endD)).filterMap Claim.allowed_amount).sum := by
          rw [sqlSum_eq_some halw, List.filterMap_map]
          rfl
        refine pctRate_mem_Icc ?_ ?_ (Option.mem_def.mp hr)
        · rw [hx]; exact s1
        · rw [hx, hy]; exact s2
  · -- gross_collection_rate = total_payments / total_charges
    intro r hr
    rw [eGross] at hr
    cases hpay : sqlSum ((s.claims.filter (inWindow startD endD)).map Claim.paid_amount) with
    | none => rw [hpay] at hr; simp [pctRate, divNullif] at hr
    | some x =>
      cases hchg : sqlSum ((s.claims.filter (inWindow startD endD)).map
          (fun c => some c.charge_amount)) with
      | none => rw [hpay, hchg] at hr; simp [pctRate, divNullif] at hr
      | some z =>
        rw [hpay, hchg] at hr
        have hx : x = ((s.claims.filter (inWindow startD endD)).filterMap Claim.paid_amount).sum := by
          rw [sqlSum_eq_some hpay, List.filterMap_map]
          rfl
        have hz : z = ((s.claims.filter (inWindow startD endD)).map Claim.charge_amount).sum := by
          rw [sqlSum_eq_some hchg, List.filterMap_map,
            show (id ∘ fun c : Claim => some c.charge_amount) = some ∘ Claim.charge_amount from rfl,
            List.filterMap_eq_map]
        refine pctRate_mem_Icc ?_ ?_ (Option.mem_def.mp hr)
        · rw [hx]; exact s1
        · rw [hx, hz]; exact s4
  · -- ar_over_90_pct = ar_over_90 / total_ar
    intro r hr
    rw [eArPct] at hr
    cases h90 : sqlSum ((s.claims.filter isOpen).map (fun c =>
        some (if today - c.submission_date > 90 then outstanding c else 0))) with
    | none => rw [h90] at hr; simp [pctRate, divNullif] at hr
    | some x =>
      cases har : sqlSum ((s.claims.filter isOpen).map (fun c => some (outstanding c))) with
      | none => rw [h90, har] at hr; simp [pctRate, divNullif] at hr
      | some y =>
        rw [h90, har] at hr
        have hx : x = ((s.claims.filter isOpen).map (fun c =>
            if today - c.submission_date > 90 then outstanding c else 0)).sum := by
          rw [sqlSum_eq_some h90, List.filterMap_map,
            show (id ∘ fun c : Claim =>
                some (if today - c.submission_date > 90 then outstanding c else 0)) =
              some ∘ (fun c : Claim =>
                if today - c.submission_date > 90 then outstanding c else 0) from rfl,
            List.filterMap_eq_map]
        have hy : y = ((s.claims.filter isOpen).map outstanding).sum := by
          rw [sqlSum_eq_some har, List.filterMap_map,
            show (id ∘ fun c : Claim => some (outstanding c)) = some ∘ outstanding from rfl,
            List.filterMap_eq_map]
        refine pctRate_mem_Icc ?_ ?_ (Option.mem_def.mp hr)
        · rw [hx]; exact a1
        · rw [hx, hy]; exact a2

/-- C1 counterexample: with one paid claim charged 100, allowed 50 and paid
100, the window `[0, 20]` has `total_allowed = 50 > 0` yet
`net_collection_rate = 200 ∉ [0, 100]`. -/
theorem C1_counterexample :
    ((calculate_revenue_metrics snapOverpaid 30 0 20).toOption.map
      (Option.map (fun m => (m.total_allowed, m.net_collection_rate))) =
      some (some (some 50, some 200))) ∧ 0 < (50 : ℚ) ∧ ¬((200 : ℚ) ≤ 100) := by
  refine ⟨by decide, by norm_num, by norm_num⟩

/-- Witness for C1 at the concrete snapshot `snapEx`: the unconditional
denial-rate bound at its value `0`, and — after discharging the well-formed
amounts side condition — the net-collection-rate bound at its value `100`. -/
theorem C1_witness :
    snapEx.claims.all wellFormedAmounts = true ∧
    (0 ≤ (0 : ℚ) ∧ (0 : ℚ) ≤ 100) ∧
    (0 ≤ (100 : ℚ) ∧ (100 : ℚ) ≤ 100) := by
  have h := C1_rates_in_range snapEx 200 0 100 exMetrics (by decide)
  exact ⟨by decide, h.1.2.1 0 (by decide), (h.2.2 (by decide)).1 100 (by decide)⟩

/-- C3 counterexample: `snapOutside` has no claim in the window `[0, 20]`,
yet `calculate_revenue_metrics` does not return the empty mapping — it
returns a row with `total_claims = 0`. -/
theorem C3_counterexample :
    (snapOutside.claims.filter (inWindow 0 20)).isEmpty = true ∧
    calculate_revenue_metrics snapOutside 30 0 20 ≠ .ok none ∧
    (calculate_revenue_metrics snapOutside 30 0 20).toOption.map
      (Option.map Metrics.total_claims) = some (some 0) := by
  exact ⟨by decide, by decide, by decide⟩

/-- C3 (amended): an ungrouped aggregate query always yields exactly one row,
so for a window containing no claim `calculate_revenue_metrics` returns a
mapping of zero counts and NULL aggregates — not an error, and never the
empty mapping (the `result.empty` branch is unreachable). -/
theorem C3_zero_row_not_empty (s : Snapshot) (today startD endD : ℤ)
    (hnone : s.claims.filter (inWindow startD endD) = [])
    (o : Option Metrics) (h : calculate_revenue_metrics s today startD endD = .ok o) :
    ∃ m, o = some m ∧ m.total_claims = 0 ∧ m.paid_claims = 0 ∧ m.denied_claims = 0 ∧
      m.total_charges = none ∧ m.total_allowed = none ∧ m.total_payments = none ∧
      m.total_adjustments = none ∧ m.avg_days_to_payment = none ∧
      m.clean_claim_rate = none ∧ m.denial_rate = none ∧
      m.net_collection_rate = none ∧ m.gross_collection_rate = none := by
  obtain ⟨dar, rfl⟩ := calc_ok_shape s today startD endD o h
  refine ⟨_, rfl, ?_, ?_, ?_, ?_, ?_, ?_, ?_, ?_, ?_, ?_, ?_, ?_⟩ <;>
    (unfold metricsRow; rw [hnone]; rfl)

/-- Witness for C3 at the concrete snapshot `snapOutside`. -/
theorem C3_witness :
    ∃ m, (some exMetricsOutside : Option Metrics) = some m ∧
      m.total_claims = 0 ∧ m.paid_claims = 0 ∧ m.denied_claims = 0 ∧
      m.total_charges = none ∧ m.total_allowed = none ∧ m.total_payments = none ∧
      m.total_adjustments = none ∧ m.avg_days_to_payment = none ∧
      m.clean_claim_rate = none ∧ m.denial_rate = none ∧
      m.net_collection_rate = none ∧ m.gross_collection_rate = none :=
  C3_zero_row_not_empty snapOutside 30 0 20 (by decide)
    (some exMetricsOutside) (by decide)

/-- C8 counterexample: `days_in_ar`'s division is not `NULLIF`-guarded — with
total payments equal to zero (non-NULL) and a non-NULL AR balance, the
metrics query faults with a division-by-zero error. -/
theorem C8_counterexample :
    calculate_revenue_metrics snapZeroPay 30 0 20 = .error "division by zero" := by
  decide

/-- C8 (amended): every `NULLIF`-guarded rate in the four analyses yields
NULL (not a fault) when its denominator is zero or NULL: the five metric
rates, the appeal success rate of a denial-pattern group, the underpayment
`variance_pct`, and the payer rates.  (Unlike these, `days_in_ar` is
unguarded and can fault — see the counterexample.) -/
theorem C8_guarded_rates_null_on_zero (s : Snapshot) (today startD endD : ℤ) :
    (∀ m : Metrics, calculate_revenue_metrics s today startD endD = .ok (some m) →
      (m.total_claims = 0 → m.clean_claim_rate = none ∧ m.denial_rate = none) ∧
      (m.total_allowed = none ∨ m.total_allowed = some 0 → m.net_collection_rate = none) ∧
      (m.total_charges = none ∨ m.total_charges = some 0 → m.gross_collection_rate = none) ∧
      (m.total_ar = none ∨ m.total_ar = some 0 → m.ar_over_90_pct = none)) ∧
    (∀ (key : String × String × String) (rows : List (Denial × Claim × Payer)),
      ((rows.map Prod.fst).filter
        (fun d => d.resolution_type.startsWith "APPEALED")).length = 0 →
      (mkDenialRow key rows).appeal_success_rate = none) ∧
    (∀ r ∈ paymentVarianceRows s today, r.expected_payment = 0 →
      r.variance_pct = none) ∧
    (∀ pm : PayerMetrics,
      (pm.total_claims = 0 → (mkPayerRow pm).denial_rate = none ∧
        (mkPayerRow pm).clean_claim_rate = none) ∧
      (pm.total_allowed = none ∨ pm.total_allowed = some 0 →
        (mkPayerRow pm).reimbursement_rate = none)) := by
  refine ⟨?_, ?_, ?_, ?_⟩
  · intro m hm
    obtain ⟨dar, ho⟩ := calc_ok_shape s today startD endD (some m) hm
    have hmM : m = { metricsRow s today startD endD with days_in_ar := dar } :=
      Option.some_inj.mp ho
    refine ⟨?_, ?_, ?_, ?_⟩
    · intro h0
      have h0' : countDistinct ((s.claims.filter (inWindow startD endD)).map
          Claim.claim_id) = 0 := by
        rw [hmM] at h0; exact h0
      constructor <;>
        (rw [hmM]; show pctRate _ _ = none; rw [h0']; simp [pctRate, divNullif])
    · intro h0
      rw [hmM] at h0 ⊢
      show pctRate (sqlSum ((s.claims.filter (inWindow startD endD)).map Claim.paid_amount))
        (sqlSum ((s.claims.filter (inWindow startD endD)).map Claim.allowed_amount)) = none
      rcases h0 with h0 | h0
      · have h0' : sqlSum ((s.claims.filter (inWindow startD endD)).map
            Claim.allowed_amount) = none := h0
        rw [h0']
        cases sqlSum ((s.claims.filter (inWindow startD endD)).map Claim.paid_amount) <;>
          simp [pctRate, divNullif]
      · have h0' : sqlSum ((s.claims.filter (inWindow startD endD)).map
            Claim.allowed_amount) = some 0 := h0
        rw [h0']
        cases sqlSum ((s.claims.filter (inWindow startD endD)).map Claim.paid_amount) <;>
          simp [pctRate, divNullif]
    · intro h0
      rw [hmM] at h0 ⊢
      show pctRate (sqlSum ((s.claims.filter (inWindow startD endD)).map Claim.paid_amount))
        (sqlSum ((s.claims.filter (inWindow startD endD)).map
          (fun c => some c.charge_amount))) = none
      rcases h0 with h0 | h0
      · have h0' : sqlSum ((s.claims.filter (inWindow startD endD)).map
            (fun c => some c.charge_amount)) = none := h0
        rw [h0']
        cases sqlSum ((s.claims.filter (inWindow startD endD)).map Claim.paid_amount) <;>
          simp [pctRate, divNullif]
      · have h0' : sqlSum ((s.claims.filter (inWindow startD endD)).map
            (fun c => some c.charge_amount)) = some 0 := h0
        rw [h0']
        cases sqlSum ((s.claims.filter (inWindow startD endD)).map Claim.paid_amount) <;>
          simp [pctRate, divNullif]
    · intro h0
      rw [hmM] at h0 ⊢
      show pctRate (sqlSum ((s.claims.filter isOpen).map (fun c =>
          some (if today - c.submission_date > 90 then outstanding c else 0))))
        (sqlSum ((s.claims.filter isOpen).map (fun c => some (outstanding c)))) = none
      rcases h0 with h0 | h0
      · have h0' : sqlSum ((s.claims.filter isOpen).map
            (fun c => some (outstanding c))) = none := h0
        rw [h0']
        cases sqlSum ((s.claims.filter isOpen).map (fun c =>
            some (if today - c.submission_date > 90 then outstanding c else 0))) <;>
          simp [pctRate, divNullif]
      · have h0' : sqlSum ((s.claims.filter isOpen).map
            (fun c => some (outstanding c))) = some 0 := h0
        rw [h0']
        cases sqlSum ((s.claims.filter isOpen).map (fun c =>
            some (if today - c.submission_date > 90 then outstanding c else 0))) <;>
          simp [pctRate, divNullif]
  · intro key rows hlen
    show pctRate _ (nullifCount ((rows.map Prod.fst).filter
      (fun d => d.resolution_type.startsWith "APPEALED")).length) = none
    rw [hlen]
    simp [nullifCount, pctRate, divNullif]
  · intro r hr h0
    unfold paymentVarianceRows at hr
    obtain ⟨c, -, hr2⟩ := List.mem_flatMap.mp hr
    obtain ⟨p, -, hfp⟩ := List.mem_filterMap.mp hr2
    cases ha : c.allowed_amount with
    | none => rw [ha] at hfp; cases c.payment_date <;> simp at hfp
    | some al =>
      cases hpd : c.payment_date with
      | none => rw [ha, hpd] at hfp; simp at hfp
      | some pd =>
        rw [ha, hpd] at hfp
        simp only [] at hfp
        by_cases hcond : (decide (c.status = "PAID") && decide (today - 90 ≤ pd)) = true
        case neg => rw [if_neg hcond] at hfp; exact absurd hfp (by simp)
        rw [if_pos hcond] at hfp
        · have hr' := Option.some_inj.mp hfp
          subst hr'
          have h0' : al - c.patient_responsibility.getD 0 = 0 := h0
          show pctRate (c.paid_amount.map (fun pa =>
              al - c.patient_responsibility.getD 0 - pa))
            (some (al - c.patient_responsibility.getD 0)) = none
          rw [h0']
          cases c.paid_amount <;> simp [pctRate, divNullif]
  · intro pm
    constructor
    · intro h0
      constructor <;>
        (show pctRate _ (nullifCount pm.total_claims) = none;
         rw [h0]; simp [nullifCount, pctRate, divNullif])
    · intro h0
      show pctRate pm.total_payments pm.total_allowed = none
      rcases h0 with h0 | h0 <;> rw [h0] <;>
        cases pm.total_payments <;> simp [pctRate, divNullif]

/-- Witness for C8 applied at `snapOutside` (zero claims in window, all
guarded rates NULL). -/
theorem C8_witness :
    (exMetricsOutside.total_claims = 0 →
      exMetricsOutside.clean_claim_rate = none ∧ exMetricsOutside.denial_rate = none) ∧
    (exMetricsOutside.total_allowed = none ∨ exMetricsOutside.total_allowed = some 0 →
      exMetricsOutside.net_collection_rate = none) ∧
    (exMetricsOutside.total_charges = none ∨ exMetricsOutside.total_charges = some 0 →
      exMetricsOutside.gross_collection_rate = none) ∧
    (exMetricsOutside.total_ar = none ∨ exMetricsOutside.total_ar = some 0 →
      exMetricsOutside.ar_over_90_pct = none) :=
  (C8_guarded_rates_null_on_zero snapOutside 30 0 20).1 exMetricsOutside (by decide)

/-- C2 counterexample: two runs over the unchanged snapshot and window but at
different wall-clock times produce different report texts (the `Generated:`
line embeds the current timestamp). -/
theorem C2_counterexample :
    (generate_executive_summary snapE 30 0 0 0 20 "2024-01-01 00:00:00").1 ≠
      (generate_executive_summary snapE 30 0 0 0 20 "2024-01-02 00:00:00").1 ∧
    (generate_executive_summary snapE 30 0 0 0 20 "2024-01-01 00:00:00").1.toOption.isSome
      = true := by
  exact ⟨by decide, by decide⟩

/-- C2 (amended): the composed report is a deterministic pure function of the
four analysis results, the window bounds and the generation timestamp; two
runs that agree on all of these produce identical output. -/
theorem C2_deterministic_given_results (s₁ s₂ : Snapshot)
    (today c6 c12 startD endD : ℤ) (now : String)
    (h1 : calculate_revenue_metrics s₁ today startD endD =
      calculate_revenue_metrics s₂ today startD endD)
    (h2 : analyze_denial_patterns s₁ c6 = analyze_denial_patterns s₂ c6)
    (h3 : identify_revenue_leakage s₁ today = identify_revenue_leakage s₂ today)
    (h4 : payer_performance_analysis s₁ c12 = payer_performance_analysis s₂ c12) :
    generate_executive_summary s₁ today c6 c12 startD endD now =
      generate_executive_summary s₂ today c6 c12 startD endD now := by
  unfold generate_executive_summary
  rw [h1, h2, h3, h4]

/-- Witness for C2 at the empty snapshot. -/
theorem C2_witness :
    generate_executive_summary snapE 30 0 0 0 20 "2024-01-01 00:00:00" =
      generate_executive_summary snapE 30 0 0 0 20 "2024-01-01 00:00:00" :=
  C2_deterministic_given_results snapE snapE 30 0 0 0 20 "2024-01-01 00:00:00"
    rfl rfl rfl rfl

end RevenueCycle
